import Mathlib

/-!
Verification of the OIDC callback relay server (`src/main.py`).

The embedding models Python strings as byte sequences (`List Nat`, each
element `< 256`): `urllib.parse.urlencode` operates on the UTF-8 bytes of
its inputs, so this representation is exact for the URL-encoding layer and
adequate (injective on ASCII literals) everywhere else.

Components embedded from the source:
* `quote_plus` / `unquote_plus` / `urlencode` / `parseQuery` — the
  `urllib.parse` query-string encoding used by `login` (main.py:113) and
  `oauth_callback` (main.py:169), and its decoding.
* `startup_event` — the discovery loader (main.py:46-77).
* `login` — the authorization initiator (main.py:90-116).
* `oauth_callback` / `route_callback` — the callback handler
  (main.py:118-172), with FastAPI's required-query-parameter binding as
  the routing layer.
* `jose_decode` — the claim/signature checks performed by
  `jwt.decode(id_token, key, algorithms=["RS256"], audience=CLIENT_ID,
  issuer=oidc_config.get("issuer"))` (main.py:152-158); key resolution
  (main.py:151) is abstracted into the token's `sigOk` field, which states
  whether the signature verifies under the key the JWKS client resolves
  for the token.
-/

/-- Python strings, represented as their UTF-8 byte sequences. -/
abbrev Bytes := List Nat

/-- Byte sequence of an ASCII string literal (code points = UTF-8 bytes). -/
def bytes (s : String) : Bytes := s.data.map Char.toNat

/-- A byte is valid (fits in one octet). -/
def validByte (b : Nat) : Prop := b < 256

/-- All bytes of a string are valid octets. -/
def validBytes (s : Bytes) : Prop := ∀ b ∈ s, b < 256

instance : DecidablePred validBytes := fun s =>
  inferInstanceAs (Decidable (∀ b ∈ s, b < 256))

/-- Uppercase hex digit character for a nibble, as in Python's `quote`. -/
def hexDigit (n : Nat) : Nat := if n < 10 then 48 + n else 55 + n

/-- Is this byte a hex digit character accepted by `unquote` (0-9, A-F, a-f)? -/
def isHexDigit (b : Nat) : Bool :=
  (48 ≤ b && b ≤ 57) || (65 ≤ b && b ≤ 70) || (97 ≤ b && b ≤ 102)

/-- Numeric value of a hex digit character. -/
def hexVal (b : Nat) : Nat :=
  if b ≤ 57 then b - 48 else if b ≤ 70 then b - 55 else b - 87

/-- The bytes `urllib.parse.quote` never escapes (`_ALWAYS_SAFE`):
ASCII letters, digits, and `_.-~`. -/
def isAlwaysSafe (b : Nat) : Bool :=
  (65 ≤ b && b ≤ 90) || (97 ≤ b && b ≤ 122) || (48 ≤ b && b ≤ 57) ||
  b == 95 || b == 46 || b == 45 || b == 126

/-- `urllib.parse.quote_plus` on a single byte (with `safe=''`, as
`urlencode` uses): safe bytes pass through, space becomes `+` (43),
everything else becomes `%XX`. -/
def quotePlusByte (b : Nat) : Bytes :=
  if isAlwaysSafe b then [b]
  else if b = 32 then [43]
  else [37, hexDigit (b / 16), hexDigit (b % 16)]

/-- `urllib.parse.quote_plus` with `safe=''` — the per-value encoder
`urllib.parse.urlencode` applies (main.py:113, main.py:169). -/
def quote_plus (s : Bytes) : Bytes := s.flatMap quotePlusByte

/-- `urllib.parse.unquote_plus`: `+` decodes to space, `%XX` with two hex
digits decodes to the byte, malformed `%` sequences pass through. -/
def unquote_plus : Bytes → Bytes
  | [] => []
  | c :: h :: l :: rest =>
    if c = 43 then 32 :: unquote_plus (h :: l :: rest)
    else if c = 37 && isHexDigit h && isHexDigit l then
      (hexVal h * 16 + hexVal l) :: unquote_plus rest
    else c :: unquote_plus (h :: l :: rest)
  | c :: rest =>
    if c = 43 then 32 :: unquote_plus rest else c :: unquote_plus rest

/-- One `key=value` component of `urlencode`'s output. -/
def encodePair (p : Bytes × Bytes) : Bytes :=
  quote_plus p.1 ++ 61 :: quote_plus p.2

/-- `urllib.parse.urlencode`: `key=value` pairs (each side quoted with
`quote_plus`) joined by `&`, in insertion order of the dict. -/
def urlencode (ps : List (Bytes × Bytes)) : Bytes :=
  [38].intercalate (ps.map encodePair)

/-- Split a query component at its first `=` (Python's
`name_value.partition('=')` step of `parse_qsl`). -/
def splitFirstEq : Bytes → Bytes × Bytes
  | [] => ([], [])
  | c :: rest =>
    if c = 61 then ([], rest)
    else
      let p := splitFirstEq rest
      (c :: p.1, p.2)

/-- Standard query-string decoding (as `urllib.parse.parse_qsl` with blank
values kept): split on `&`, split each field at the first `=`, and
`unquote_plus` both sides. -/
def parseQuery (s : Bytes) : List (Bytes × Bytes) :=
  (s.splitOn 38).map fun f =>
    (unquote_plus (splitFirstEq f).1, unquote_plus (splitFirstEq f).2)

-- Round-trip lemmas for the encoding layer.

theorem unquote_plus_cons_plain (b : Nat) (h1 : b ≠ 43) (h2 : b ≠ 37)
    (ys : Bytes) : unquote_plus (b :: ys) = b :: unquote_plus ys := by
  match ys with
  | [] => simp [unquote_plus, h1]
  | [y] => simp [unquote_plus, h1]
  | y1 :: y2 :: t => simp [unquote_plus, h1, h2]

theorem unquote_plus_cons_space (ys : Bytes) :
    unquote_plus (43 :: ys) = 32 :: unquote_plus ys := by
  match ys with
  | [] => simp [unquote_plus]
  | [y] => simp [unquote_plus]
  | y1 :: y2 :: t => simp [unquote_plus]

theorem unquote_plus_cons_pct (h l : Nat) (hh : isHexDigit h = true)
    (hl : isHexDigit l = true) (ys : Bytes) :
    unquote_plus (37 :: h :: l :: ys) =
      (hexVal h * 16 + hexVal l) :: unquote_plus ys := by
  simp [unquote_plus, hh, hl]

theorem hexVal_hexDigit : ∀ n < 16, hexVal (hexDigit n) = n := by decide

theorem isHexDigit_hexDigit : ∀ n < 16, isHexDigit (hexDigit n) = true := by
  decide

theorem unquote_quotePlusByte_append (b : Nat) (hb : b < 256) (ys : Bytes) :
    unquote_plus (quotePlusByte b ++ ys) = b :: unquote_plus ys := by
  unfold quotePlusByte
  split
  · next hsafe =>
    have h1 : b ≠ 43 := by
      simp only [isAlwaysSafe, Bool.or_eq_true, Bool.and_eq_true,
        decide_eq_true_eq, beq_iff_eq] at hsafe
      omega
    have h2 : b ≠ 37 := by
      simp only [isAlwaysSafe, Bool.or_eq_true, Bool.and_eq_true,
        decide_eq_true_eq, beq_iff_eq] at hsafe
      omega
    simpa using unquote_plus_cons_plain b h1 h2 ys
  · split
    · next hsp => simpa [hsp] using unquote_plus_cons_space ys
    · next hsafe hsp =>
      have hdiv : b / 16 < 16 := by omega
      have hmod : b % 16 < 16 := by omega
      simp only [List.cons_append, List.nil_append]
      rw [unquote_plus_cons_pct _ _ (isHexDigit_hexDigit _ hdiv)
        (isHexDigit_hexDigit _ hmod)]
      rw [hexVal_hexDigit _ hdiv, hexVal_hexDigit _ hmod]
      congr 1
      omega

theorem unquote_quote_append (s : Bytes) (hs : validBytes s) (ys : Bytes) :
    unquote_plus (quote_plus s ++ ys) = s ++ unquote_plus ys := by
  induction s with
  | nil => simp [quote_plus]
  | cons b rest ih =>
    have hb : b < 256 := hs b (List.mem_cons_self b rest)
    have hrest : validBytes rest := fun x hx => hs x (List.mem_cons_of_mem b hx)
    simp only [quote_plus, List.flatMap_cons, List.append_assoc]
    rw [unquote_quotePlusByte_append b hb]
    simp [quote_plus] at ih
    simp [ih hrest]

/-- `unquote_plus` inverts `quote_plus` on valid byte strings. -/
theorem unquote_quote (s : Bytes) (hs : validBytes s) :
    unquote_plus (quote_plus s) = s := by
  have := unquote_quote_append s hs []
  simpa [unquote_plus] using this

set_option maxRecDepth 4096 in
theorem quotePlusByte_no_special (b : Nat) (hb : b < 256) :
    ∀ c ∈ quotePlusByte b, c ≠ 38 ∧ c ≠ 61 := by
  revert b
  decide

theorem quote_plus_no_special (s : Bytes) (hs : validBytes s) :
    ∀ c ∈ quote_plus s, c ≠ 38 ∧ c ≠ 61 := by
  intro c hc
  simp only [quote_plus, List.mem_flatMap] at hc
  obtain ⟨b, hb, hcb⟩ := hc
  exact quotePlusByte_no_special b (hs b hb) c hcb

theorem splitFirstEq_append (k v : Bytes) (hk : 61 ∉ k) :
    splitFirstEq (k ++ 61 :: v) = (k, v) := by
  induction k with
  | nil => simp [splitFirstEq]
  | cons c rest ih =>
    have hc : c ≠ 61 := fun h => hk (h ▸ List.mem_cons_self c rest)
    have hrest : 61 ∉ rest := fun h => hk (List.mem_cons_of_mem c h)
    simp [splitFirstEq, hc, ih hrest]

theorem parseQuery_encodePair (p : Bytes × Bytes)
    (h1 : validBytes p.1) (h2 : validBytes p.2) :
    (unquote_plus (splitFirstEq (encodePair p)).1,
     unquote_plus (splitFirstEq (encodePair p)).2) = p := by
  have hk : (61 : Nat) ∉ quote_plus p.1 := fun h =>
    (quote_plus_no_special p.1 h1 61 h).2 rfl
  simp only [encodePair, splitFirstEq_append _ _ hk]
  simp [unquote_quote p.1 h1, unquote_quote p.2 h2]

/-- Decoding inverts `urlencode` on nonempty parameter lists of valid byte
strings: the encode/decode round trip is lossless. -/
theorem parseQuery_urlencode (ps : List (Bytes × Bytes)) (hne : ps ≠ [])
    (hv : ∀ p ∈ ps, validBytes p.1 ∧ validBytes p.2) :
    parseQuery (urlencode ps) = ps := by
  unfold parseQuery urlencode
  have hnosep : ∀ l ∈ ps.map encodePair, (38 : Nat) ∉ l := by
    intro l hl hmem
    simp only [List.mem_map] at hl
    obtain ⟨p, hp, rfl⟩ := hl
    simp only [encodePair, List.mem_append, List.mem_cons] at hmem
    rcases hmem with h | h
    · exact (quote_plus_no_special p.1 (hv p hp).1 38 h).1 rfl
    · rcases h with h | h
      · omega
      · exact (quote_plus_no_special p.2 (hv p hp).2 38 h).1 rfl
  rw [List.splitOn_intercalate (ps.map encodePair) 38 hnosep
    (by simpa using hne)]
  rw [List.map_map]
  conv_rhs => rw [← List.map_id ps]
  refine List.map_congr_left ?_
  intro p hp
  exact parseQuery_encodePair p (hv p hp).1 (hv p hp).2

-- The data model and handlers embedded from src/main.py.

/-- Process configuration read from the environment (main.py:14-21).
`CLIENT_ID`/`CLIENT_SECRET` are taken as configured strings; the discovery
base and logging are irrelevant to the embedded handlers. -/
structure Env where
  client_id : Bytes
  client_secret : Bytes
  app_base_url : Bytes
  extension_id : Bytes

/-- A parsed JSON object with string-rendered values, as an insertion-ordered
association list — the shape of `oidc_config` and of a token response body
(values that are not strings, e.g. `expires_in`, stand for their `str()`
rendering, which is what `urlencode` applies to them). -/
abbrev Json := List (Bytes × Bytes)

/-- Outcome of one `httpx` call as the handler observes it: a transport
error (`httpx.RequestError`), or a response with a 2xx flag and a body that
either parses to a JSON object or does not parse (`none`). -/
inductive HttpOutcome where
  | requestError
  | response (is2xx : Bool) (body : Option Json)
deriving DecidableEq

/-- Result of `startup_event` (main.py:46-77): `ok cfg` means `oidc_config`
is left populated with `cfg` and the JWKS client is created;
`discoveryFailed` means an exception in the caught tuple
`(httpx.RequestError, ValueError, KeyError)` reset `oidc_config` to `{}`;
`uncaughtCrash` means `response.raise_for_status()` raised
`httpx.HTTPStatusError`, which is not in the caught tuple. -/
inductive StartupOutcome where
  | ok (cfg : Json)
  | discoveryFailed
  | uncaughtCrash
deriving DecidableEq

/-- The discovery loader `startup_event` (main.py:46-77): GET the
well-known document, `raise_for_status`, parse JSON into `oidc_config`,
then require a truthy `jwks_uri` (raising `ValueError` otherwise, which the
handler catches and answers by resetting `oidc_config` to `{}`). No other
field of the document is checked. -/
def startup_event (discovery : HttpOutcome) : StartupOutcome :=
  match discovery with
  | .requestError => .discoveryFailed
  | .response is2xx body =>
    if is2xx = false then .uncaughtCrash
    else
      match body with
      | none => .discoveryFailed
      | some cfg =>
        match cfg.lookup (bytes "jwks_uri") with
        | none => .discoveryFailed
        | some u => if u = [] then .discoveryFailed else .ok cfg

/-- Result of the `/login` endpoint (main.py:90-116). `keyErrorCrash` is
the uncaught `KeyError` from `oidc_config["authorization_endpoint"]`. -/
inductive LoginResult where
  | notConfigured503
  | missingState400
  | keyErrorCrash
  | redirect (url : Bytes)
deriving DecidableEq

/-- The query-parameter dict built by `login` (main.py:104-110), in
insertion order. -/
def loginParams (env : Env) (state : Bytes) : List (Bytes × Bytes) :=
  [(bytes "client_id", env.client_id),
   (bytes "response_type", bytes "code"),
   (bytes "scope", bytes "openid email profile"),
   (bytes "redirect_uri", env.app_base_url ++ bytes "/oauth/oidc/callback"),
   (bytes "state", state)]

/-- The `/login` endpoint (main.py:90-116): 503 when `oidc_config` is the
empty dict, 400 when `state` is absent or empty (`if not state`), else a
redirect to `authorization_endpoint + "?" + urlencode(params)`
(63 is `?`). -/
def login (env : Env) (cfg : Json) (state : Option Bytes) : LoginResult :=
  if cfg = [] then .notConfigured503
  else
    match state with
    | none => .missingState400
    | some s =>
      if s = [] then .missingState400
      else
        match cfg.lookup (bytes "authorization_endpoint") with
        | none => .keyErrorCrash
        | some ep => .redirect (ep ++ 63 :: urlencode (loginParams env s))

/-- The observable content of a received `id_token` as `jwt.decode` sees
it: the header's `alg`, whether the signature verifies under the signing
key the JWKS client resolves for this token (main.py:151), and the `exp`,
`aud`, `iss` claims. -/
structure IdToken where
  alg : Bytes
  sigOk : Bool
  exp : Option Int
  aud : Option Bytes
  iss : Option Bytes

/-- Outcome of `jose.jwt.decode`, by cause: `algNotAllowed` and
`badSignature` surface as `JWTError`, `expired` as
`ExpiredSignatureError`, `invalidAudience`/`invalidIssuer` as
`JWTClaimsError` — all subclasses of `JWTError`. -/
inductive JoseResult where
  | ok
  | algNotAllowed
  | badSignature
  | expired
  | invalidAudience
  | invalidIssuer
deriving DecidableEq

/-- jose's `exp` check (leeway 0): expired iff the claim is present and in
the past. -/
def expiredAt (exp : Option Int) (now : Int) : Bool :=
  match exp with
  | some e => e < now
  | none => false

/-- jose's `aud` check: rejected iff the claim is present and differs from
the expected audience (a missing `aud` claim passes in python-jose). -/
def audRejected (aud : Option Bytes) (audience : Bytes) : Bool :=
  match aud with
  | some a => a ≠ audience
  | none => false

/-- jose's `iss` check, performed only when an expected issuer was passed:
rejected iff the claim is absent or differs. -/
def issRejected (iss : Option Bytes) (issuer : Option Bytes) : Bool :=
  match issuer with
  | some i => iss ≠ some i
  | none => false

/-- `jose.jwt.decode(id_token, key, algorithms, audience, issuer)`
(main.py:152-158): reject a header `alg` outside `algorithms`, then verify
the signature, then validate `exp`, `aud`, `iss` in that order. -/
def jose_decode (tok : IdToken) (algorithms : List Bytes) (audience : Bytes)
    (issuer : Option Bytes) (now : Int) : JoseResult :=
  if tok.alg ∉ algorithms then .algNotAllowed
  else if tok.sigOk = false then .badSignature
  else if expiredAt tok.exp now then .expired
  else if audRejected tok.aud audience then .invalidAudience
  else if issRejected tok.iss issuer then .invalidIssuer
  else .ok

/-- Result of the callback route. `missingParams422` is FastAPI's
validation response when a required query parameter (`code: str`,
`state: str`) is absent; `httpStatusCrash` is the uncaught
`httpx.HTTPStatusError` from `token_response.raise_for_status()` (not in
the caught tuple at main.py:161); `keyErrorCrash` is the uncaught
`KeyError` from `oidc_config["token_endpoint"]`; `errorPage` is
`_create_error_response(title, description)` (status 400). -/
inductive CallbackResult where
  | missingParams422
  | notConfigured503
  | keyErrorCrash
  | httpStatusCrash
  | errorPage (title desc : Bytes)
  | success (uri : Bytes)
deriving DecidableEq

/-- A callback invocation's observable outcome: the response plus the list
of POST bodies sent to the token endpoint. -/
structure CallbackOutcome where
  result : CallbackResult
  tokenPosts : List Json
deriving DecidableEq

/-- The single error response the callback's `except` clause produces for
every caught failure (main.py:163-166). -/
def tokenExchangeFailedPage : CallbackResult :=
  .errorPage (bytes "Token Exchange Failed")
    (bytes "Could not exchange the authorization code for a valid token. Please try again.")

/-- The form body POSTed to the token endpoint (main.py:130-136), in
insertion order. -/
def token_data (env : Env) (code : Bytes) : Json :=
  [(bytes "grant_type", bytes "authorization_code"),
   (bytes "code", code),
   (bytes "redirect_uri", env.app_base_url ++ bytes "/oauth/oidc/callback"),
   (bytes "client_id", env.client_id),
   (bytes "client_secret", env.client_secret)]

/-- The callback handler body (main.py:118-172), after FastAPI has bound
`code` and `state`. Inputs beyond the request: the current `oidc_config`,
the token endpoint's reply, the interpretation `interp` of an `id_token`
string as the token `jwt.decode` sees (header, signature status under the
resolved key, claims), and the clock. Every exception in
`(httpx.RequestError, JWTError, ValueError)` yields the one generic error
page; `raise_for_status` on a non-2xx reply escapes uncaught. -/
def oauth_callback (env : Env) (cfg : Json) (code state : Bytes)
    (exchange : HttpOutcome) (interp : Bytes → IdToken) (now : Int) :
    CallbackOutcome :=
  if cfg = [] then ⟨.notConfigured503, []⟩
  else
    match cfg.lookup (bytes "token_endpoint") with
    | none => ⟨.keyErrorCrash, []⟩
    | some _ =>
      let posted := [token_data env code]
      match exchange with
      | .requestError => ⟨tokenExchangeFailedPage, posted⟩
      | .response is2xx rbody =>
        if is2xx = false then ⟨.httpStatusCrash, posted⟩
        else
          match rbody with
          | none => ⟨tokenExchangeFailedPage, posted⟩
          | some tj =>
            match tj.lookup (bytes "id_token") with
            | none => ⟨tokenExchangeFailedPage, posted⟩
            | some idt =>
              if idt = [] then ⟨tokenExchangeFailedPage, posted⟩
              else
                match jose_decode (interp idt) [bytes "RS256"] env.client_id
                    (cfg.lookup (bytes "issuer")) now with
                | .ok =>
                  ⟨.success (bytes "vscode://" ++ env.extension_id ++
                      bytes "/auth?" ++ urlencode tj ++
                      bytes "&state=" ++ state), posted⟩
                | _ => ⟨tokenExchangeFailedPage, posted⟩

/-- The callback route as exposed over HTTP: FastAPI binds the required
query parameters `code` and `state` (main.py:119) and rejects the request
with a 422 validation response when either is absent; all other query
parameters (`error`, `error_description` included) are ignored. -/
def route_callback (env : Env) (cfg : Json) (query : List (Bytes × Bytes))
    (exchange : HttpOutcome) (interp : Bytes → IdToken) (now : Int) :
    CallbackOutcome :=
  match query.lookup (bytes "code"), query.lookup (bytes "state") with
  | some code, some state => oauth_callback env cfg code state exchange interp now
  | _, _ => ⟨.missingParams422, []⟩

-- Concrete fixtures used by counterexamples and witnesses.

/-- A fully configured environment. -/
def envA : Env :=
  ⟨bytes "client-123", bytes "secret-xyz", bytes "http://localhost:8000",
   bytes "my.extension"⟩

/-- A complete discovery document. -/
def cfgA : Json :=
  [(bytes "authorization_endpoint", bytes "https://idp.test/auth"),
   (bytes "token_endpoint", bytes "https://idp.test/token"),
   (bytes "issuer", bytes "https://idp.test"),
   (bytes "jwks_uri", bytes "https://idp.test/jwks")]

/-- Interpretation of every token string as an RS256 token, valid
signature, expired at time 100 (`exp = 0`). -/
def interpExpired : Bytes → IdToken :=
  fun _ => ⟨bytes "RS256", true, some 0, none, none⟩

/-- Interpretation of every token string as a fully valid token for
`envA`/`cfgA` at time 100. -/
def interpOk : Bytes → IdToken :=
  fun _ => ⟨bytes "RS256", true, some 200, some (bytes "client-123"),
    some (bytes "https://idp.test")⟩

-- Structural facts about the callback handler shared by several claims.

theorem oauth_callback_shape (env : Env) (cfg : Json) (code state te : Bytes)
    (exch : HttpOutcome) (interp : Bytes → IdToken) (now : Int)
    (hcfg : cfg ≠ []) (hte : cfg.lookup (bytes "token_endpoint") = some te) :
    (oauth_callback env cfg code state exch interp now).tokenPosts
      = [token_data env code] ∧
    (oauth_callback env cfg code state exch interp now).result
      ≠ .missingParams422 := by
  unfold oauth_callback
  rw [if_neg hcfg, hte]
  cases exch with
  | requestError => simp [tokenExchangeFailedPage]
  | response is2xx body =>
    cases is2xx with
    | false => simp
    | true =>
      simp only [Bool.true_eq_false, if_false]
      cases body with
      | none => simp [tokenExchangeFailedPage]
      | some tj =>
        cases hl : tj.lookup (bytes "id_token") with
        | none => simp [hl, tokenExchangeFailedPage]
        | some idt =>
          by_cases hidt : idt = []
          · simp [hl, hidt, tokenExchangeFailedPage]
          · simp only [hl, if_neg hidt]
            split <;> simp [tokenExchangeFailedPage]

theorem oauth_callback_validation_branch (env : Env) (cfg : Json)
    (code state idt te : Bytes) (tj : Json) (interp : Bytes → IdToken)
    (now : Int) (hcfg : cfg ≠ [])
    (hte : cfg.lookup (bytes "token_endpoint") = some te)
    (hid : tj.lookup (bytes "id_token") = some idt) (hne : idt ≠ []) :
    oauth_callback env cfg code state (.response true (some tj)) interp now
      = ⟨match jose_decode (interp idt) [bytes "RS256"] env.client_id
            (cfg.lookup (bytes "issuer")) now with
         | .ok => .success (bytes "vscode://" ++ env.extension_id ++
             bytes "/auth?" ++ urlencode tj ++ bytes "&state=" ++ state)
         | _ => tokenExchangeFailedPage,
         [token_data env code]⟩ := by
  unfold oauth_callback
  rw [if_neg hcfg, hte]
  simp only [Bool.true_eq_false, if_false, hid, if_neg hne]
  split <;> simp_all

theorem jose_decode_ok_iff (tok : IdToken) (algorithms : List Bytes)
    (audience : Bytes) (issuer : Option Bytes) (now : Int) :
    jose_decode tok algorithms audience issuer now = .ok ↔
      tok.alg ∈ algorithms ∧ tok.sigOk = true ∧
      expiredAt tok.exp now = false ∧
      audRejected tok.aud audience = false ∧
      issRejected tok.iss issuer = false := by
  unfold jose_decode
  split_ifs with h1 h2 h3 h4 h5 <;> simp_all

-- Claim theorems.

/-- C6: with `oidc_config` left empty (discovery never succeeded), both the
login initiator and the callback handler fail immediately with the
"not configured" 503 and issue no token-endpoint POST and build no
authorization URL, whatever the rest of the input is. -/
theorem not_configured_fails_fast (env : Env) (state : Option Bytes)
    (code st : Bytes) (exch : HttpOutcome) (interp : Bytes → IdToken)
    (now : Int) :
    login env [] state = .notConfigured503 ∧
    oauth_callback env [] code st exch interp now = ⟨.notConfigured503, []⟩ := by
  constructor
  · simp [login]
  · simp [oauth_callback]

/-- C10: a callback carrying `code` and `state` present but empty is not
rejected as missing input: the handler proceeds and POSTs the token
exchange with the empty `code` value in the form body. -/
theorem empty_params_forwarded (env : Env) (cfg : Json) (te : Bytes)
    (exch : HttpOutcome) (interp : Bytes → IdToken) (now : Int)
    (hcfg : cfg ≠ []) (hte : cfg.lookup (bytes "token_endpoint") = some te) :
    (route_callback env cfg [(bytes "code", []), (bytes "state", [])]
        exch interp now).tokenPosts = [token_data env []] ∧
    (route_callback env cfg [(bytes "code", []), (bytes "state", [])]
        exch interp now).result ≠ .missingParams422 ∧
    (token_data env []).lookup (bytes "code") = some [] := by
  have hroute : route_callback env cfg [(bytes "code", []), (bytes "state", [])]
      exch interp now = oauth_callback env cfg [] [] exch interp now := rfl
  rw [hroute]
  have h := oauth_callback_shape env cfg [] [] te exch interp now hcfg hte
  exact ⟨h.1, h.2, rfl⟩

/-- C10 witness: concrete instantiation. -/
theorem empty_params_forwarded_witness :
    (route_callback envA cfgA [(bytes "code", []), (bytes "state", [])]
        .requestError interpExpired 100).tokenPosts = [token_data envA []] ∧
    (route_callback envA cfgA [(bytes "code", []), (bytes "state", [])]
        .requestError interpExpired 100).result ≠ .missingParams422 ∧
    (token_data envA []).lookup (bytes "code") = some [] :=
  empty_params_forwarded envA cfgA (bytes "https://idp.test/token")
    .requestError interpExpired 100 (by decide) (by decide)

/-- C4 counterexample: a callback with `code` and `state` both present but
empty is not answered with a missing-parameter rejection and does issue a
token-endpoint POST — the claim fails on the emptiness half. -/
theorem empty_params_not_rejected_cex :
    (route_callback envA cfgA [(bytes "code", []), (bytes "state", [])]
        .requestError interpExpired 100).tokenPosts = [token_data envA []] ∧
    (route_callback envA cfgA [(bytes "code", []), (bytes "state", [])]
        .requestError interpExpired 100).result = tokenExchangeFailedPage := by
  constructor <;> rfl

/-- C4 amended: when `code` or `state` is absent from the query, the
request is rejected by the framework's required-parameter validation (422)
before the handler runs, with no network calls; empty-string values are
not checked and flow on to the token exchange. -/
theorem absent_params_rejected (env : Env) (cfg : Json)
    (query : List (Bytes × Bytes)) (exch : HttpOutcome)
    (interp : Bytes → IdToken) (now : Int)
    (h : query.lookup (bytes "code") = none ∨
         query.lookup (bytes "state") = none) :
    route_callback env cfg query exch interp now = ⟨.missingParams422, []⟩ := by
  unfold route_callback
  rcases h with h | h
  · rw [h]
  · rw [h]
    cases query.lookup (bytes "code") <;> rfl

/-- C4 witness: concrete instantiation of the amended claim. -/
theorem absent_params_rejected_witness :
    route_callback envA cfgA [(bytes "state", bytes "s")] .requestError
      interpExpired 100 = ⟨.missingParams422, []⟩ :=
  absent_params_rejected envA cfgA [(bytes "state", bytes "s")] .requestError
    interpExpired 100 (by decide)

/-- C3: the code has no provider-error branch. A callback carrying
`error=access_denied` and `error_description` instead of a code is
answered by the framework's missing-parameter validation response (422,
not the 400 its own test script expects and not any provider-denied
classification) — though indeed with zero token-endpoint requests — and
when `code` and `state` are present the error parameters are simply
ignored and the token exchange proceeds. -/
theorem provider_error_params_ignored :
    route_callback envA cfgA
        [(bytes "error", bytes "access_denied"),
         (bytes "error_description", bytes "User denied access")]
        .requestError interpExpired 100 = ⟨.missingParams422, []⟩ ∧
    (route_callback envA cfgA
        [(bytes "code", bytes "x"), (bytes "state", bytes "s"),
         (bytes "error", bytes "access_denied")]
        .requestError interpExpired 100).tokenPosts
      = [token_data envA (bytes "x")] := by
  constructor <;> rfl

/-- A discovery document carrying only `jwks_uri`. -/
def cfgJwksOnly : Json := [(bytes "jwks_uri", bytes "https://idp.test/jwks")]

/-- C5 counterexample: a discovery document in which the required fields
`authorization_endpoint`, `token_endpoint` and `issuer` are all absent
still loads successfully, leaving the provider metadata populated — only
`jwks_uri` is checked at startup. -/
theorem startup_ignores_three_fields_cex :
    startup_event (.response true (some cfgJwksOnly)) = .ok cfgJwksOnly ∧
    cfgJwksOnly.lookup (bytes "issuer") = none ∧
    cfgJwksOnly.lookup (bytes "token_endpoint") = none ∧
    cfgJwksOnly.lookup (bytes "authorization_endpoint") = none := by
  refine ⟨rfl, rfl, rfl, rfl⟩

/-- C5 amended: discovery leaves the metadata populated iff the response is
2xx with a parseable body whose `jwks_uri` is present and non-empty; the
handled failure path (metadata reset to `{}`) is taken iff the request
transport-fails, the body is unparsable, or `jwks_uri` is absent or empty;
a non-2xx response instead escapes `raise_for_status` as an exception
outside the caught tuple. Absence of the other three required fields does
not fail discovery. -/
theorem startup_event_characterization (d : HttpOutcome) :
    ((∃ cfg, startup_event d = .ok cfg) ↔
      (∃ cfg u, d = .response true (some cfg) ∧
        cfg.lookup (bytes "jwks_uri") = some u ∧ u ≠ [])) ∧
    (startup_event d = .discoveryFailed ↔
      (d = .requestError ∨ d = .response true none ∨
        ∃ cfg, d = .response true (some cfg) ∧
          (cfg.lookup (bytes "jwks_uri") = none ∨
           cfg.lookup (bytes "jwks_uri") = some []))) := by
  cases d with
  | requestError => simp [startup_event]
  | response is2xx body =>
    cases is2xx with
    | false => simp [startup_event]
    | true =>
      cases body with
      | none => simp [startup_event]
      | some cfg =>
        cases hu : cfg.lookup (bytes "jwks_uri") with
        | none =>
          refine ⟨?_, ?_⟩
          · simp only [startup_event, hu]
            constructor
            · rintro ⟨c, hc⟩
              exact StartupOutcome.noConfusion hc
            · rintro ⟨c, u, hc, hl, -⟩
              injection hc with h1 h2
              injection h2 with h3
              subst h3
              rw [hu] at hl
              exact Option.noConfusion hl
          · simp only [startup_event, hu]
            constructor
            · intro _
              exact Or.inr (Or.inr ⟨cfg, rfl, Or.inl hu⟩)
            · intro _
              rfl
        | some u =>
          by_cases hv : u = []
          · subst hv
            refine ⟨?_, ?_⟩
            · simp only [startup_event, hu, if_pos rfl]
              constructor
              · rintro ⟨c, hc⟩
                exact StartupOutcome.noConfusion hc
              · rintro ⟨c, u, hc, hl, hne⟩
                injection hc with h1 h2
                injection h2 with h3
                subst h3
                rw [hu] at hl
                injection hl with h4
                exact absurd h4.symm hne
            · simp only [startup_event, hu, if_pos rfl]
              constructor
              · intro _
                exact Or.inr (Or.inr ⟨cfg, rfl, Or.inr hu⟩)
              · intro _
                rfl
          · refine ⟨?_, ?_⟩
            · simp only [startup_event, hu, if_neg hv]
              constructor
              · intro _
                exact ⟨cfg, u, rfl, hu, hv⟩
              · intro _
                exact ⟨cfg, rfl⟩
            · simp only [startup_event, hu, if_neg hv]
              constructor
              · intro hc
                exact StartupOutcome.noConfusion hc
              · rintro (hc | hc | ⟨c, hc, hl⟩)
                · exact HttpOutcome.noConfusion hc
                · injection hc with h1 h2
                  exact Option.noConfusion h2
                · injection hc with h1 h2
                  injection h2 with h3
                  subst h3
                  rcases hl with hl | hl
                  · rw [hu] at hl
                    exact Option.noConfusion hl
                  · rw [hu] at hl
                    injection hl with h4
                    exact absurd h4 hv

/-- A token response containing an identity token. -/
def tjA : Json := [(bytes "id_token", bytes "jwt-a")]

/-- An RS256 token with a valid signature, expired at time 100. -/
def tokExp100 : IdToken := ⟨bytes "RS256", true, some 0, none, none⟩

/-- Interpretation of every token string as an HS256-signed token whose
claims would otherwise validate for `envA`/`cfgA` at time 100. -/
def interpHS : Bytes → IdToken :=
  fun _ => ⟨bytes "HS256", true, some 200, some (bytes "client-123"),
    some (bytes "https://idp.test")⟩

/-- C1: token validation passes `algorithms=["RS256"]`, so a token whose
header declares any other algorithm (HS256 included), or whose signature
does not verify under the resolved public key, is rejected by the
callback handler with the error response; conversely `jwt.decode` accepts
only tokens with header algorithm RS256 and a verifying signature. -/
theorem symmetric_alg_rejected (env : Env) (cfg : Json)
    (code state idt te : Bytes) (tj : Json) (interp : Bytes → IdToken)
    (now : Int) (hcfg : cfg ≠ [])
    (hte : cfg.lookup (bytes "token_endpoint") = some te)
    (hid : tj.lookup (bytes "id_token") = some idt) (hne : idt ≠ [])
    (hbad : (interp idt).alg ≠ bytes "RS256" ∨ (interp idt).sigOk = false) :
    (oauth_callback env cfg code state (.response true (some tj)) interp
        now).result = tokenExchangeFailedPage ∧
    (∀ tok : IdToken, jose_decode tok [bytes "RS256"] env.client_id
        (cfg.lookup (bytes "issuer")) now = .ok →
      tok.alg = bytes "RS256" ∧ tok.sigOk = true) := by
  have hok : ∀ tok : IdToken, jose_decode tok [bytes "RS256"] env.client_id
      (cfg.lookup (bytes "issuer")) now = .ok →
      tok.alg = bytes "RS256" ∧ tok.sigOk = true := by
    intro tok h
    rcases (jose_decode_ok_iff tok _ _ _ _).mp h with ⟨hmem, hsig, -, -, -⟩
    exact ⟨by simpa using hmem, hsig⟩
  refine ⟨?_, hok⟩
  rw [oauth_callback_validation_branch env cfg code state idt te tj interp now
    hcfg hte hid hne]
  have hnok : jose_decode (interp idt) [bytes "RS256"] env.client_id
      (cfg.lookup (bytes "issuer")) now ≠ .ok := by
    intro h
    rcases hok _ h with ⟨ha, hs⟩
    rcases hbad with hb | hb
    · exact hb ha
    · rw [hb] at hs
      exact Bool.false_ne_true hs
  cases hj : jose_decode (interp idt) [bytes "RS256"] env.client_id
      (cfg.lookup (bytes "issuer")) now <;> simp_all

/-- C1 witness: an HS256 token with otherwise valid claims is rejected. -/
theorem symmetric_alg_rejected_witness :
    (oauth_callback envA cfgA (bytes "c") (bytes "s")
        (.response true (some tjA)) interpHS 100).result
      = tokenExchangeFailedPage ∧
    (∀ tok : IdToken, jose_decode tok [bytes "RS256"] envA.client_id
        (cfgA.lookup (bytes "issuer")) 100 = .ok →
      tok.alg = bytes "RS256" ∧ tok.sigOk = true) :=
  symmetric_alg_rejected envA cfgA (bytes "c") (bytes "s") (bytes "jwt-a")
    (bytes "https://idp.test/token") tjA interpHS 100 (by decide) (by decide)
    (by decide) (by decide) (by decide)

/-- C2 counterexample: an expired identity token and a pure transport
failure of the token exchange produce literally the same handler outcome
(the one generic error response), so a claim-validation failure is not
surfaced as anything distinguishable from a token-exchange failure. -/
theorem validation_indistinguishable_cex :
    oauth_callback envA cfgA (bytes "c") (bytes "s")
        (.response true (some tjA)) interpExpired 100
      = ⟨tokenExchangeFailedPage, [token_data envA (bytes "c")]⟩ ∧
    oauth_callback envA cfgA (bytes "c") (bytes "s") .requestError
        interpExpired 100
      = ⟨tokenExchangeFailedPage, [token_data envA (bytes "c")]⟩ := by
  constructor <;> rfl

/-- C2 amended: `jwt.decode` does reject with a cause-specific outcome —
`expired` when `exp` is past, `invalidAudience` when `aud` differs from the
configured client id, `invalidIssuer` when `iss` differs from the expected
issuer — but the callback handler catches all of them in the same `except`
clause as transport errors and returns an outcome identical to the one for
a failed exchange, so validation failures are not distinguishable at the
handler's interface. -/
theorem validation_causes_collapsed (tok : IdToken) (audience issuer : Bytes)
    (env : Env) (cfg : Json) (code state idt te : Bytes) (tj : Json)
    (interp : Bytes → IdToken) (now : Int)
    (halg : tok.alg = bytes "RS256") (hsig : tok.sigOk = true)
    (hcfg : cfg ≠ []) (hte : cfg.lookup (bytes "token_endpoint") = some te)
    (hid : tj.lookup (bytes "id_token") = some idt) (hne : idt ≠ [])
    (hnok : jose_decode (interp idt) [bytes "RS256"] env.client_id
        (cfg.lookup (bytes "issuer")) now ≠ .ok) :
    (expiredAt tok.exp now = true →
      jose_decode tok [bytes "RS256"] audience (some issuer) now = .expired) ∧
    (expiredAt tok.exp now = false → audRejected tok.aud audience = true →
      jose_decode tok [bytes "RS256"] audience (some issuer) now
        = .invalidAudience) ∧
    (expiredAt tok.exp now = false → audRejected tok.aud audience = false →
      issRejected tok.iss (some issuer) = true →
      jose_decode tok [bytes "RS256"] audience (some issuer) now
        = .invalidIssuer) ∧
    oauth_callback env cfg code state (.response true (some tj)) interp now
      = oauth_callback env cfg code state .requestError interp now := by
  have hmem : tok.alg ∈ [bytes "RS256"] := by simp [halg]
  refine ⟨?_, ?_, ?_, ?_⟩
  · intro hexp
    simp [jose_decode, halg, hsig, hexp]
  · intro hexp haud
    simp [jose_decode, halg, hsig, hexp, haud]
  · intro hexp haud hiss
    simp [jose_decode, halg, hsig, hexp, haud, hiss]
  · rw [oauth_callback_validation_branch env cfg code state idt te tj interp
      now hcfg hte hid hne]
    have hre : oauth_callback env cfg code state .requestError interp now
        = ⟨tokenExchangeFailedPage, [token_data env code]⟩ := by
      unfold oauth_callback
      rw [if_neg hcfg, hte]
    rw [hre]
    cases hj : jose_decode (interp idt) [bytes "RS256"] env.client_id
        (cfg.lookup (bytes "issuer")) now <;> simp_all

/-- C2 witness: concrete instantiation on an expired token. -/
theorem validation_causes_collapsed_witness :
    (expiredAt tokExp100.exp 100 = true →
      jose_decode tokExp100 [bytes "RS256"] (bytes "aud-x")
        (some (bytes "iss-x")) 100 = .expired) ∧
    (expiredAt tokExp100.exp 100 = false →
      audRejected tokExp100.aud (bytes "aud-x") = true →
      jose_decode tokExp100 [bytes "RS256"] (bytes "aud-x")
        (some (bytes "iss-x")) 100 = .invalidAudience) ∧
    (expiredAt tokExp100.exp 100 = false →
      audRejected tokExp100.aud (bytes "aud-x") = false →
      issRejected tokExp100.iss (some (bytes "iss-x")) = true →
      jose_decode tokExp100 [bytes "RS256"] (bytes "aud-x")
        (some (bytes "iss-x")) 100 = .invalidIssuer) ∧
    oauth_callback envA cfgA (bytes "c") (bytes "s")
        (.response true (some tjA)) interpExpired 100
      = oauth_callback envA cfgA (bytes "c") (bytes "s") .requestError
          interpExpired 100 :=
  validation_causes_collapsed tokExp100 (bytes "aud-x") (bytes "iss-x") envA
    cfgA (bytes "c") (bytes "s") (bytes "jwt-a")
    (bytes "https://idp.test/token") tjA interpExpired 100 (by decide)
    (by decide) (by decide) (by decide) (by decide) (by decide) (by decide)

/-- A token response without an identity token field. -/
def tjNoId : Json := [(bytes "access_token", bytes "at-1")]

/-- C9 counterexample: a token response lacking `id_token` produces an
outcome literally identical to a transport failure of the exchange — not a
failure kind distinct from `TokenExchangeError`. -/
theorem missing_id_token_not_distinct_cex :
    oauth_callback envA cfgA (bytes "c") (bytes "s")
        (.response true (some tjNoId)) interpExpired 100
      = oauth_callback envA cfgA (bytes "c") (bytes "s") .requestError
          interpExpired 100 ∧
    (oauth_callback envA cfgA (bytes "c") (bytes "s")
        (.response true (some tjNoId)) interpExpired 100).result
      = tokenExchangeFailedPage := by
  constructor <;> rfl

/-- C9 amended: when the exchange response lacks an `id_token` field (or
it is the empty string, which `if not id_token` also treats as absent),
the handler raises `ValueError` into the shared `except` clause and
returns the same generic error response it uses for transport failures,
never reaching token validation or the success redirect. -/
theorem missing_id_token_generic_error (env : Env) (cfg : Json)
    (code state te : Bytes) (tj : Json) (interp : Bytes → IdToken)
    (now : Int) (hcfg : cfg ≠ [])
    (hte : cfg.lookup (bytes "token_endpoint") = some te)
    (hid : tj.lookup (bytes "id_token") = none ∨
           tj.lookup (bytes "id_token") = some []) :
    (oauth_callback env cfg code state (.response true (some tj)) interp
        now).result = tokenExchangeFailedPage ∧
    (∀ u, (oauth_callback env cfg code state (.response true (some tj))
        interp now).result ≠ .success u) := by
  have hres : (oauth_callback env cfg code state (.response true (some tj))
      interp now).result = tokenExchangeFailedPage := by
    unfold oauth_callback
    rw [if_neg hcfg, hte]
    rcases hid with h | h <;> simp [h]
  refine ⟨hres, ?_⟩
  rw [hres]
  intro u
  simp [tokenExchangeFailedPage]

/-- C9 witness: concrete instantiation. -/
theorem missing_id_token_generic_error_witness :
    (oauth_callback envA cfgA (bytes "c") (bytes "s")
        (.response true (some tjNoId)) interpExpired 100).result
      = tokenExchangeFailedPage ∧
    (∀ u, (oauth_callback envA cfgA (bytes "c") (bytes "s")
        (.response true (some tjNoId)) interpExpired 100).result
      ≠ .success u) :=
  missing_id_token_generic_error envA cfgA (bytes "c") (bytes "s")
    (bytes "https://idp.test/token") tjNoId interpExpired 100 (by decide)
    (by decide) (Or.inl (by decide))

/-- C7: for every non-empty `state` and populated metadata carrying an
authorization endpoint, `login` redirects to that endpoint followed by `?`
and exactly the query parameters `client_id`, `response_type=code`,
`scope=openid email profile`, `redirect_uri`, `state` (percent-encoded by
`urlencode`), and decoding the query string reproduces those five
key/value pairs exactly — the encode/decode round trip is lossless,
including for `state` values needing percent-encoding. -/
theorem auth_url_roundtrip (env : Env) (cfg : Json) (state ep : Bytes)
    (hcfg : cfg ≠ [])
    (hep : cfg.lookup (bytes "authorization_endpoint") = some ep)
    (hst : state ≠ []) (hsv : validBytes state)
    (hcid : validBytes env.client_id) (hbase : validBytes env.app_base_url) :
    login env cfg (some state) = .redirect
      (ep ++ 63 :: urlencode (loginParams env state)) ∧
    parseQuery (urlencode (loginParams env state)) =
      [(bytes "client_id", env.client_id),
       (bytes "response_type", bytes "code"),
       (bytes "scope", bytes "openid email profile"),
       (bytes "redirect_uri",
         env.app_base_url ++ bytes "/oauth/oidc/callback"),
       (bytes "state", state)] := by
  constructor
  · simp only [login, if_neg hcfg, if_neg hst, hep]
  · have hk1 : validBytes (bytes "client_id") := by decide
    have hk2 : validBytes (bytes "response_type") := by decide
    have hv2 : validBytes (bytes "code") := by decide
    have hk3 : validBytes (bytes "scope") := by decide
    have hv3 : validBytes (bytes "openid email profile") := by decide
    have hk4 : validBytes (bytes "redirect_uri") := by decide
    have hv4 : validBytes (bytes "/oauth/oidc/callback") := by decide
    have hk5 : validBytes (bytes "state") := by decide
    have hv : ∀ p ∈ loginParams env state, validBytes p.1 ∧ validBytes p.2 := by
      intro p hp
      simp only [loginParams, List.mem_cons, List.not_mem_nil, or_false]
        at hp
      rcases hp with rfl | rfl | rfl | rfl | rfl
      · exact ⟨hk1, hcid⟩
      · exact ⟨hk2, hv2⟩
      · exact ⟨hk3, hv3⟩
      · refine ⟨hk4, fun b hb => ?_⟩
        rcases List.mem_append.mp hb with h | h
        · exact hbase b h
        · exact hv4 b h
      · exact ⟨hk5, hsv⟩
    exact parseQuery_urlencode (loginParams env state) (by simp [loginParams])
      hv

/-- C7 witness: a state containing a space, an ampersand and an equals
sign survives the round trip. -/
theorem auth_url_roundtrip_witness :
    login envA cfgA (some (bytes "st@te=& 1")) = .redirect
      (bytes "https://idp.test/auth" ++ 63 ::
        urlencode (loginParams envA (bytes "st@te=& 1"))) ∧
    parseQuery (urlencode (loginParams envA (bytes "st@te=& 1"))) =
      [(bytes "client_id", envA.client_id),
       (bytes "response_type", bytes "code"),
       (bytes "scope", bytes "openid email profile"),
       (bytes "redirect_uri",
         envA.app_base_url ++ bytes "/oauth/oidc/callback"),
       (bytes "state", bytes "st@te=& 1")] :=
  auth_url_roundtrip envA cfgA (bytes "st@te=& 1")
    (bytes "https://idp.test/auth") (by decide) (by decide) (by decide)
    (by decide) (by decide) (by decide)

/-- C8: when the exchange returns a parseable 2xx body whose `id_token`
validates, the handler's success result is the extension redirect URI
`vscode://<extension-id>/auth?<urlencode(token fields)>&state=<state>` —
every field of the provider's token response URL-encoded (and recoverable
by decoding) followed by the original caller-supplied `state` appended
unchanged. -/
theorem success_redirect_shape (env : Env) (cfg : Json)
    (code state idt te : Bytes) (tj : Json) (interp : Bytes → IdToken)
    (now : Int) (hcfg : cfg ≠ [])
    (hte : cfg.lookup (bytes "token_endpoint") = some te)
    (hid : tj.lookup (bytes "id_token") = some idt) (hne : idt ≠ [])
    (hok : jose_decode (interp idt) [bytes "RS256"] env.client_id
        (cfg.lookup (bytes "issuer")) now = .ok)
    (htj : tj ≠ []) (hv : ∀ p ∈ tj, validBytes p.1 ∧ validBytes p.2) :
    (oauth_callback env cfg code state (.response true (some tj)) interp
        now).result
      = .success (bytes "vscode://" ++ env.extension_id ++ bytes "/auth?" ++
          urlencode tj ++ bytes "&state=" ++ state) ∧
    parseQuery (urlencode tj) = tj := by
  constructor
  · rw [oauth_callback_validation_branch env cfg code state idt te tj interp
      now hcfg hte hid hne, hok]
  · exact parseQuery_urlencode tj htj hv

/-- A well-formed token response with two fields. -/
def tjB : Json :=
  [(bytes "id_token", bytes "jwt-a"), (bytes "access_token", bytes "tok 1")]

/-- C8 witness: concrete successful exchange. -/
theorem success_redirect_shape_witness :
    (oauth_callback envA cfgA (bytes "c") (bytes "s")
        (.response true (some tjB)) interpOk 100).result
      = .success (bytes "vscode://" ++ envA.extension_id ++
          bytes "/auth?" ++ urlencode tjB ++ bytes "&state=" ++ bytes "s") ∧
    parseQuery (urlencode tjB) = tjB :=
  success_redirect_shape envA cfgA (bytes "c") (bytes "s") (bytes "jwt-a")
    (bytes "https://idp.test/token") tjB interpOk 100 (by decide) (by decide)
    (by decide) (by decide) (by decide) (by decide) (by decide)
